import Mathlib

/- A shallow embedding of naucse/models.py from the naucse.python.cz
repository: the model layer around courses, sessions, materials and lessons.
Python values are modelled with Nat, String, Option and structures; raising an
exception is modelled with Except. Each definition carries a note pointing at
the source code it embeds. -/

set_option autoImplicit false
set_option linter.unusedVariables false

deriving instance DecidableEq for Except

/-- Python exception values raised by the embedded code. -/
inductive PyExc
  | valueError (msg : String)
  | keyError (key : String)
  | nameError (name : String)
  | attributeError (attr : String)
  | noURL (obj_type : String)
  | noURLType (url_type : String)
deriving DecidableEq

/-- Load-time failures of the declarative field machinery, under the names the
specification gives them (MissingFieldError, ConversionError). -/
inductive LoadError
  | missingField (name : String)
  | conversionError (msg : String)
deriving DecidableEq

/-- The Python exception classes relevant to models.py. NoURL and NoURLType
are declared in models.py lines 24 to 28; the rest are builtins. -/
inductive ExcClass
  | baseException
  | exceptionClass
  | lookupError
  | keyError
  | valueError
  | noURL
  | noURLType
deriving DecidableEq, Fintype

/-- The direct base class of each exception class, as declared: models.py has
class NoURL(LookupError) and class NoURLType(NoURL); the builtins follow
the standard hierarchy (LookupError and ValueError extend Exception). -/
def pyBaseClass : ExcClass → Option ExcClass
  | .baseException => none
  | .exceptionClass => some .baseException
  | .lookupError => some .exceptionClass
  | .keyError => some .lookupError
  | .valueError => some .exceptionClass
  | .noURL => some .lookupError
  | .noURLType => some .noURL

/-- The chain of classes reachable from a class through pyBaseClass, the class
itself first (the method resolution order). Written out per class; the
theorem ancestors_follows_base checks it against pyBaseClass. -/
def ancestors : ExcClass → List ExcClass
  | .baseException => [.baseException]
  | .exceptionClass => [.exceptionClass, .baseException]
  | .lookupError => [.lookupError, .exceptionClass, .baseException]
  | .keyError => [.keyError, .lookupError, .exceptionClass, .baseException]
  | .valueError => [.valueError, .exceptionClass, .baseException]
  | .noURL => [.noURL, .lookupError, .exceptionClass, .baseException]
  | .noURLType => [.noURLType, .noURL, .lookupError, .exceptionClass, .baseException]

/-- Python issubclass: c is h itself or h appears among the bases of c. An
except clause with class h catches an instance of class c exactly when
isSubclass c h holds. -/
def isSubclass (c h : ExcClass) : Bool := decide (h ∈ ancestors c)

/-- The Root.url_factories table: url_type to a table from object type name to
a URL builder; a builder takes the object and the external flag (modelling
url_for(obj, _external=external) from models.py line 692). -/
abbrev URLFactories := List (String × List (String × (String → Bool → String)))

/-- Root._url_for (models.py lines 681 to 692): two dict lookups; a KeyError
on the first raises NoURLType, on the second NoURL, and otherwise the
registered builder is applied to the object and the external flag. obj_type
is the Python type(obj) unless the caller overrides it; here it is always
passed explicitly. -/
def Root._url_for (url_factories : URLFactories) (obj : String)
    (obj_type : String) (url_type : String) (external : Bool) :
    Except PyExc String :=
  match url_factories.lookup url_type with
  | none => .error (.noURLType url_type)
  | some urls =>
    match urls.lookup obj_type with
    | none => .error (.noURL obj_type)
    | some url_for => .ok (url_for obj external)

/-- Model.get_url (models.py lines 54 to 55): delegates to Root._url_for with
the object itself, which makes obj_type the type of the object. -/
def Model.get_url (url_factories : URLFactories) (obj : String)
    (obj_type : String) (url_type : String) (external : Bool) :
    Except PyExc String :=
  Root._url_for url_factories obj obj_type url_type external

/-- Concrete factory table used to instantiate the C1 theorem. -/
def c1_factories : URLFactories :=
  [("web", [("Course", fun obj _ => "/course/" ++ obj)])]

/-- set_prev_next (models.py lines 314 to 323): returns, for each element of
the sequence, the pair of attributes the Python loop assigns to it, as the
triple (prev, element, next), produced by zipping [None] + sequence,
sequence and sequence[1:] + [None]. -/
def set_prev_next {α : Type*} (seq : List α) : List (Option α × α × Option α) :=
  (((none :: seq.map some).zip seq).zip ((seq.drop 1).map some ++ [none])).map
    (fun p => (p.1.1, p.1.2, p.2))

/-- Helper generalizing set_prev_next over the prev value of the first
element. -/
def spnAux {α : Type*} (pre : Option α) (seq : List α) :
    List (Option α × α × Option α) :=
  (((pre :: seq.map some).zip seq).zip ((seq.drop 1).map some ++ [none])).map
    (fun p => (p.1.1, p.1.2, p.2))

/-- The module constant TIMEZONE = Europe/Prague (models.py line 17); a tzinfo
value is modelled by the name of the timezone. -/
def tzPrague : Option String := some "Europe/Prague"

/-- A datetime.date value. -/
structure PyDate where
  year : Nat
  month : Nat
  day : Nat
deriving DecidableEq

/-- A datetime.time value together with its tzinfo. -/
structure PyTime where
  hour : Nat
  minute : Nat
  tzinfo : Option String
deriving DecidableEq

/-- A datetime.datetime value (date plus time of day, tzinfo inside the
time). -/
structure PyDateTime where
  date : PyDate
  time : PyTime
deriving DecidableEq

/-- datetime.datetime.combine: a date and a time of day make a datetime; the
tzinfo of the time is kept. -/
def datetime_combine (d : PyDate) (t : PyTime) : PyDateTime := ⟨d, t⟩

/-- Python date comparison, lexicographic on (year, month, day). -/
def dateLt (a b : PyDate) : Bool :=
  a.year < b.year ||
    (a.year == b.year &&
      (a.month < b.month || (a.month == b.month && a.day < b.day)))

/-- Python str.split on a single separator character: every occurrence splits,
the empty string gives one empty part. -/
def splitOnChar (c : Char) : List Char → List (List Char)
  | [] => [[]]
  | x :: rest =>
    match splitOnChar c rest with
    | [] => if x = c then [[], []] else [[x]]
    | g :: gs => if x = c then [] :: g :: gs else (x :: g) :: gs

/-- The numeric value of a decimal digit character, None otherwise. -/
def digitVal? (c : Char) : Option Nat :=
  if c.isDigit then some (c.toNat - 48) else none

/-- Accumulator pass of pyInt?. -/
def parseNatAux : List Char → Nat → Option Nat
  | [], acc => some acc
  | c :: rest, acc =>
    match digitVal? c with
    | some d => parseNatAux rest (acc * 10 + d)
    | none => none

/-- Python int applied to a string, modelled for plain decimal digit strings:
None stands for the ValueError int raises on anything else. -/
def pyInt? (s : String) : Option Nat :=
  match s.data with
  | [] => none
  | cs => parseNatAux cs 0

/-- Python str.split with a one-character separator, on strings. -/
def pySplit (s : String) (sep : Char) : List String :=
  (splitOnChar sep s.data).map (fun cs => String.mk cs)

/-- time_from_string (models.py lines 418 to 423): split on the colon, parse
hour and minute with int, and attach the module timezone. A wrong number of
parts fails the two-name tuple unpacking and a non-numeric part fails int,
both with ValueError. -/
def time_from_string (time_string : String) : Except PyExc PyTime :=
  match pySplit time_string ':' with
  | [h, m] =>
    match pyInt? h, pyInt? m with
    | some hour, some minute => .ok ⟨hour, minute, tzPrague⟩
    | _, _ => .error (.valueError time_string)
  | _ => .error (.valueError time_string)

/-- The raw mapping accepted by TimeIntervalLoader, with string times under
the keys start and end. -/
structure RawTimeInterval where
  start : String
  «end» : String
deriving DecidableEq

/-- The loaded default_time value: a mapping with time values under the keys
start and end. -/
structure TimeInterval where
  start : PyTime
  «end» : PyTime
deriving DecidableEq

/-- TimeIntervalLoader.load (models.py lines 427 to 431): parse the start
entry, then the end entry, through time_from_string. -/
def TimeIntervalLoader.load (data : RawTimeInterval) :
    Except PyExc TimeInterval := do
  let s ← time_from_string data.start
  let e ← time_from_string data.«end»
  return ⟨s, e⟩

/-- TimeIntervalLoader.dump (models.py lines 433 to 437): the Python body
builds a dict from value.strftime applied to a format, where value is the
loaded interval dict itself; a dict has no strftime attribute, so every call
raises AttributeError before any formatting happens. -/
def TimeIntervalLoader.dump (value : TimeInterval) :
    Except PyExc RawTimeInterval :=
  .error (.attributeError "strftime")

/-- A loaded per-session time: either a full datetime (the date-time form) or
a time of day (the bare-time form). -/
inductive SessionTimeVal
  | dt (value : PyDateTime)
  | tod (value : PyTime)
deriving DecidableEq

/-- SessionTimeLoader.load (models.py lines 327 to 332): the try block
evaluates datetime.datetime.strftime applied to a format string and the bare
name value; no name value is defined in the function (the parameter is
data), so Python raises NameError when evaluating the arguments, and the
except clause catches only ValueError; every call therefore raises NameError
before any parsing work. -/
def SessionTimeLoader.load (data : String) : Except PyExc SessionTimeVal :=
  .error (.nameError "value")

/-- A Session as the loader materializes it (models.py lines 359 to 403).
start_time and end_time hold the converted raw field values as they stand
when the after-load hooks read them; per the spec an absent optional field
reads as None. -/
structure Session where
  slug : String
  title : String
  date : Option PyDate
  start_time : Option SessionTimeVal
  end_time : Option SessionTimeVal
  index : Nat
deriving DecidableEq

/-- A Course restricted to the parts the session-time and start-date claims
read: its slug, default_time and sessions in insertion order. -/
structure Course where
  slug : String
  default_time : Option TimeInterval
  sessions : List Session
deriving DecidableEq

/-- The kind argument of _combine_session_time: start or end. -/
inductive TimeKind
  | start
  | «end»
deriving DecidableEq

/-- default_time[kind]. -/
def TimeInterval.get (iv : TimeInterval) : TimeKind → PyTime
  | .start => iv.start
  | .«end» => iv.«end»

/-- getattr(session, kind + time suffix). -/
def Session.kind_time (s : Session) : TimeKind → Option SessionTimeVal
  | .start => s.start_time
  | .«end» => s.end_time

/-- _combine_session_time (models.py lines 345 to 356): with no per-session
time, combine the session date with the course default time of the same
kind when both exist; with a bare time of day, combine it with the session
date when the date exists; with a full datetime, return it unchanged; in the
remaining cases fall through to None. -/
def _combine_session_time (session : Session) (course : Course)
    (kind : TimeKind) : Option PyDateTime :=
  match session.kind_time kind with
  | none =>
    match session.date, course.default_time with
    | some d, some default_time =>
      some (datetime_combine d (default_time.get kind))
    | _, _ => none
  | some (.tod t) =>
    match session.date with
    | some d => some (datetime_combine d t)
    | none => none
  | some (.dt v) => some v

/-- The after-load hook on Session.start_time (models.py lines 396 to 398):
the value it stores back into start_time. The Python hook reaches the course
through the parent pointer; here the course is passed explicitly. -/
def Session.combined_start_time (session : Session) (course : Course) :
    Option PyDateTime :=
  _combine_session_time session course .start

/-- Python min over two dates: the candidate replaces the current minimum only
when strictly smaller. -/
def pyMinDate (cur x : PyDate) : PyDate := if dateLt x cur then x else cur

/-- The Course.start_date constructor (models.py lines 495 to 498): collect
the dates of the sessions, drop the missing ones, and take the minimum,
None when no session has a date. -/
def Course.start_date (course : Course) : Option PyDate :=
  match course.sessions.filterMap (fun s => s.date) with
  | [] => none
  | d :: ds => some (ds.foldl pyMinDate d)

/-- First session of the C3 end-to-end scenario: dated 2024-01-10, no
per-session times. -/
def c3_session1 : Session := ⟨"s1", "Session 1", some ⟨2024, 1, 10⟩, none, none, 0⟩

/-- Second session of the C3 scenario: dated 2024-01-17, no per-session
times. -/
def c3_session2 : Session := ⟨"s2", "Session 2", some ⟨2024, 1, 17⟩, none, none, 1⟩

/-- The interval that loading default_time start 09:00 end 12:00 produces. -/
def c3_default_time : TimeInterval := ⟨⟨9, 0, tzPrague⟩, ⟨12, 0, tzPrague⟩⟩

/-- The C3 scenario course: default_time 09:00 to 12:00 and the two dated
sessions. -/
def c3_course : Course := ⟨"courses/demo", some c3_default_time, [c3_session1, c3_session2]⟩

/-- A resolved Lesson, identified by its slug (the further Lesson fields play
no role in the claims). -/
structure Lesson where
  slug : String
deriving DecidableEq

/-- Raw input data for a Material (models.py lines 260 to 267): four optional
string fields and the required type field. -/
structure RawMaterial where
  slug : Option String
  title : Option String
  external_url : Option String
  lesson_slug : Option String
  type : Option String
deriving DecidableEq

/-- A loaded Material. -/
structure Material where
  slug : Option String
  title : Option String
  external_url : Option String
  lesson_slug : Option String
  type : String
deriving DecidableEq

/-- Python truthiness of an optional string: None and the empty string are
falsy. -/
def truthy : Option String → Bool
  | none => false
  | some s => !s.isEmpty

/-- Modelled from the spec: the registry load machinery lives in
naucse.metamodel, which is not under src/. Per spec section 4.2 load converts
each declared Field independently, an absent optional field stays unset
(read as None) and an absent required field fails with MissingFieldError.
Material (models.py lines 260 to 267) declares slug, title, external_url and
lesson_slug as optional, type as required, no after-load hook and no
cross-field check; URLLoader.load only passes the string through the
out-of-scope sanitizer, modelled as the identity. -/
def Material.load (raw : RawMaterial) : Except LoadError Material :=
  match raw.type with
  | none => .error (.missingField "type")
  | some t => .ok ⟨raw.slug, raw.title, raw.external_url, raw.lesson_slug, t⟩

/-- The Material.lesson property (models.py lines 277 to 284): when
lesson_slug is not None, a truthy external_url raises ValueError; otherwise
the slug is looked up in course.lessons, raising KeyError when absent.
Without a lesson_slug the property falls through returning None. -/
def Material.lesson (m : Material) (course_lessons : List (String × Lesson)) :
    Except PyExc (Option Lesson) :=
  match m.lesson_slug with
  | none => .ok none
  | some slug =>
    if truthy m.external_url then
      .error (.valueError "external_url and lesson_slug are incompatible")
    else
      match course_lessons.lookup slug with
      | some l => .ok (some l)
      | none => .error (.keyError slug)

/-- Material.get_url (models.py lines 290 to 297): with a truthy lesson_slug
the URL comes from the lesson shim of the course (abstracted as the
shim_get_url parameter); otherwise a url_type other than web raises
NoURLType, a truthy external_url is returned, and with neither the function
falls off the end returning None. -/
def Material.get_url (m : Material)
    (shim_get_url : String → Except PyExc (Option String))
    (url_type : String) : Except PyExc (Option String) :=
  if truthy m.lesson_slug then shim_get_url (m.lesson_slug.getD "")
  else if url_type != "web" then .error (.noURLType url_type)
  else if truthy m.external_url then .ok m.external_url
  else .ok none

/-- Raw material declaring both external_url and lesson_slug, for C7. -/
def c7_raw : RawMaterial :=
  ⟨some "mat", some "Title", some "https://example.com/x", some "intro", some "page"⟩

/-- The material that loading c7_raw produces. -/
def c7_material : Material :=
  ⟨some "mat", some "Title", some "https://example.com/x", some "intro", "page"⟩

/-- The lazy-lesson state of a Course (models.py lines 461 to 464): the
resolved lessons, the pending LessonShim slugs (dict keys in insertion
order), and the _frozen flag. -/
structure CourseState where
  lessons : List (String × Lesson)
  shims : List String
  frozen : Bool
deriving DecidableEq

/-- What Course.get_lesson_shim hands back: a resolved Lesson or a
LessonShim. -/
inductive ShimResult
  | lesson (l : Lesson)
  | shim (slug : String)
deriving DecidableEq

/-- Course.get_lesson_shim (models.py lines 537 to 548): a resolved lesson is
returned directly; on a miss, an open course returns the existing shim or
creates, stores and returns a new one, while a frozen course re-raises the
KeyError. The function never calls the renderer, which the unchanged
lessons component makes explicit. -/
def Course.get_lesson_shim (st : CourseState) (slug : String) :
    Except PyExc ShimResult × CourseState :=
  match st.lessons.lookup slug with
  | some l => (.ok (.lesson l), st)
  | none =>
    if st.frozen then (.error (.keyError slug), st)
    else if st.shims.contains slug then (.ok (.shim slug), st)
    else (.ok (.shim slug), ⟨st.lessons, st.shims ++ [slug], st.frozen⟩)

/-- The message of the link-depth guard (models.py lines 570 to 571). -/
def linkDepthMessage (slug : String) : String :=
  "Lessons in course " ++ slug ++ " are linked too deeply"

/-- The while loop of the Course._frozen loader (models.py lines 564 to 572).
One round of load_lessons together with the external renderer turns the
current shim set into the next one; that per-round effect (fetch the
requested slugs, install the rendered lessons, and enqueue whatever new
slugs their content references) is abstracted as step. link_depth starts at
50 and is decremented after each round; when it would drop below zero the
loop raises the link-depth ValueError with the message from the source. The
round that Python still performs just before raising is pure here, so
dropping it leaves the result unchanged. -/
def Course._frozen_loop (slug : String) (step : List String → List String) :
    List String → Nat → Except PyExc Bool
  | shims, depth =>
    if shims.isEmpty then .ok true
    else
      match depth with
      | 0 => .error (.valueError (linkDepthMessage slug))
      | d + 1 => Course._frozen_loop slug step (step shims) d

/-- Frozen course state used to instantiate the C8 theorem. -/
def c8_frozen_state : CourseState := ⟨[("a", ⟨"a"⟩)], [], true⟩

/-- Open course state used to instantiate the C8 theorem. -/
def c8_open_state : CourseState := ⟨[("a", ⟨"a"⟩)], [], false⟩

/-- Material with only an external_url, used to instantiate the C9 theorem. -/
def c9_material_ext : Material :=
  ⟨some "m1", some "Link", some "https://example.com/a", none, "link"⟩

/-- Material with neither lesson_slug nor external_url, used to instantiate
the C9 theorem. -/
def c9_material_bare : Material := ⟨some "m2", some "Bare", none, none, "page"⟩


/- ---------------------------------------------------------------- theorems -/

/-- Sanity check: the written-out ancestor chains follow the declared direct
base classes. -/
theorem ancestors_follows_base (c : ExcClass) :
    ancestors c = c :: (match pyBaseClass c with
      | some p => ancestors p
      | none => []) := by
  cases c <;> rfl

/-- C10: NoURLType is a subclass of NoURL and NoURL a subclass of LookupError,
so every handler class that catches NoURL instances also catches NoURLType
instances; catching NoURL alone cannot tell the two failures apart. -/
theorem c10_exception_hierarchy :
    isSubclass .noURLType .noURL = true ∧
    isSubclass .noURL .lookupError = true ∧
    ∀ handler : ExcClass, isSubclass .noURL handler = true →
      isSubclass .noURLType handler = true := by
  refine ⟨by decide, by decide, ?_⟩
  intro handler
  revert handler
  decide

/-- Witness for C10 at the concrete handler class LookupError. -/
theorem c10_exception_hierarchy_witness :
    isSubclass .noURL .lookupError = true ∧
    isSubclass .noURLType .lookupError = true :=
  ⟨by decide, c10_exception_hierarchy.2.2 .lookupError (by decide)⟩

/-- C1: Root._url_for raises NoURLType when url_factories has no entry for the
requested url_type, raises NoURL when the registered table has no builder
for the object type, and otherwise returns the registered builder applied to
the object; Model.get_url delegates to it unchanged. -/
theorem c1_url_for_lookup (factories : URLFactories)
    (obj obj_type url_type : String) (external : Bool) :
    (factories.lookup url_type = none →
      Root._url_for factories obj obj_type url_type external =
        .error (.noURLType url_type)) ∧
    (∀ urls, factories.lookup url_type = some urls →
      urls.lookup obj_type = none →
      Root._url_for factories obj obj_type url_type external =
        .error (.noURL obj_type)) ∧
    (∀ urls f, factories.lookup url_type = some urls →
      urls.lookup obj_type = some f →
      Root._url_for factories obj obj_type url_type external =
        .ok (f obj external)) ∧
    Model.get_url factories obj obj_type url_type external =
      Root._url_for factories obj obj_type url_type external := by
  refine ⟨?_, ?_, ?_, rfl⟩
  · intro h
    simp [Root._url_for, h]
  · intro urls h1 h2
    simp [Root._url_for, h1, h2]
  · intro urls f h1 h2
    simp [Root._url_for, h1, h2]

/-- Witness for C1 on a one-entry factory table: a missing url_type raises
NoURLType and a registered builder is applied to the object. -/
theorem c1_url_for_lookup_witness :
    (c1_factories.lookup "api" = none ∧
      Root._url_for c1_factories "courses/demo" "Course" "api" false =
        Except.error (.noURLType "api")) ∧
    Root._url_for c1_factories "courses/demo" "Course" "web" false =
      Except.ok "/course/courses/demo" :=
  ⟨⟨rfl, (c1_url_for_lookup c1_factories "courses/demo" "Course" "api" false).1 rfl⟩,
    (c1_url_for_lookup c1_factories "courses/demo" "Course" "web" false).2.2.1
      [("Course", fun obj _ => "/course/" ++ obj)]
      (fun obj _ => "/course/" ++ obj) rfl rfl⟩

/-- C3: in the two-session scenario with course default time 09:00 to 12:00
and session dates 2024-01-10 and 2024-01-17, loading the default time
interval yields the 09:00/12:00 Prague times, the after-load hook derives
the first session start_time 2024-01-10T09:00, and the course start_date is
the minimum session date 2024-01-10. -/
theorem c3_session_time_end_to_end :
    TimeIntervalLoader.load ⟨"09:00", "12:00"⟩ = .ok c3_default_time ∧
    Session.combined_start_time c3_session1 c3_course =
      some ⟨⟨2024, 1, 10⟩, ⟨9, 0, tzPrague⟩⟩ ∧
    Course.start_date c3_course = some ⟨2024, 1, 10⟩ := by
  refine ⟨by decide, by decide, by decide⟩

/-- C5: SessionTimeLoader.load raises NameError on every input, including the
two shapes its declared schema pattern admits, instead of parsing the
date-time form, parsing the bare-time form, or rejecting malformed input
with a ConversionError. -/
theorem c5_session_time_loader_bug :
    SessionTimeLoader.load "2024-01-10 09:00:00" =
      .error (.nameError "value") ∧
    SessionTimeLoader.load "09:00:00" = .error (.nameError "value") ∧
    ∀ data : String, SessionTimeLoader.load data = .error (.nameError "value") :=
  ⟨rfl, rfl, fun _ => rfl⟩

/-- C6: on the well-formed raw interval start 09:00 end 12:00, load succeeds,
but dump applied to the loaded value raises AttributeError (dump formats the
interval dict itself instead of its entries), so dump is not a right inverse
of load. -/
theorem c6_time_interval_dump_bug :
    TimeIntervalLoader.load ⟨"09:00", "12:00"⟩ = .ok c3_default_time ∧
    (TimeIntervalLoader.load ⟨"09:00", "12:00"⟩).bind TimeIntervalLoader.dump =
      .error (.attributeError "strftime") := by
  refine ⟨by decide, by decide⟩

/-- C7 counterexample: loading the material that declares both external_url
and lesson_slug does not fail with a ConversionError; it succeeds. -/
theorem c7_load_succeeds_counterexample :
    Material.load c7_raw = .ok c7_material ∧
    ¬ ∃ msg, Material.load c7_raw = .error (.conversionError msg) := by
  refine ⟨rfl, ?_⟩
  rintro ⟨msg, h⟩
  rw [show Material.load c7_raw = .ok c7_material from rfl] at h
  exact Except.noConfusion h

/-- C7 amended: loading a Material that declares both fields succeeds, and the
incompatibility instead surfaces when the lesson property is accessed, as a
ValueError. -/
theorem c7_lesson_property_raises (raw : RawMaterial) (t : String)
    (ht : raw.type = some t) (hslug : raw.lesson_slug ≠ none)
    (hext : truthy raw.external_url = true) :
    ∃ m, Material.load raw = .ok m ∧
      ∀ course_lessons, Material.lesson m course_lessons =
        .error (.valueError "external_url and lesson_slug are incompatible") := by
  refine ⟨⟨raw.slug, raw.title, raw.external_url, raw.lesson_slug, t⟩, ?_, ?_⟩
  · simp [Material.load, ht]
  · intro course_lessons
    match hls : raw.lesson_slug with
    | none => exact absurd hls hslug
    | some slug => simp [Material.lesson, hext]

/-- Witness for the amended C7 at the concrete both-fields material. -/
theorem c7_lesson_property_raises_witness :
    c7_raw.type = some "page" ∧ c7_raw.lesson_slug ≠ none ∧
    truthy c7_raw.external_url = true ∧
    ∃ m, Material.load c7_raw = .ok m ∧
      ∀ course_lessons, Material.lesson m course_lessons =
        .error (.valueError "external_url and lesson_slug are incompatible") :=
  ⟨rfl, by decide, by decide,
    c7_lesson_property_raises c7_raw "page" rfl (by decide) (by decide)⟩

/-- C8: on a slug not among the resolved lessons, a frozen course fails with
the KeyError and leaves the state untouched (no shim enqueued, no fetch),
while an open course returns a shim and leaves the resolved lessons and the
frozen flag untouched (no fetch). -/
theorem c8_frozen_lookup (st : CourseState) (slug : String)
    (hmiss : st.lessons.lookup slug = none) :
    (st.frozen = true →
      Course.get_lesson_shim st slug = (.error (.keyError slug), st)) ∧
    (st.frozen = false →
      (Course.get_lesson_shim st slug).1 = .ok (.shim slug) ∧
      (Course.get_lesson_shim st slug).2.lessons = st.lessons ∧
      (Course.get_lesson_shim st slug).2.frozen = st.frozen) := by
  constructor
  · intro hf
    simp [Course.get_lesson_shim, hmiss, hf]
  · intro hf
    by_cases hc : slug ∈ st.shims
    · simp [Course.get_lesson_shim, hmiss, hf, hc]
    · simp [Course.get_lesson_shim, hmiss, hf, hc]

/-- Witness for C8 at a concrete frozen state and a concrete open state. -/
theorem c8_frozen_lookup_witness :
    (c8_frozen_state.lessons.lookup "b" = none ∧
      ((c8_frozen_state.frozen = true →
        Course.get_lesson_shim c8_frozen_state "b" =
          (.error (.keyError "b"), c8_frozen_state)) ∧
      (c8_frozen_state.frozen = false →
        (Course.get_lesson_shim c8_frozen_state "b").1 = .ok (.shim "b") ∧
        (Course.get_lesson_shim c8_frozen_state "b").2.lessons =
          c8_frozen_state.lessons ∧
        (Course.get_lesson_shim c8_frozen_state "b").2.frozen =
          c8_frozen_state.frozen))) ∧
    (c8_open_state.lessons.lookup "b" = none ∧
      ((c8_open_state.frozen = true →
        Course.get_lesson_shim c8_open_state "b" =
          (.error (.keyError "b"), c8_open_state)) ∧
      (c8_open_state.frozen = false →
        (Course.get_lesson_shim c8_open_state "b").1 = .ok (.shim "b") ∧
        (Course.get_lesson_shim c8_open_state "b").2.lessons =
          c8_open_state.lessons ∧
        (Course.get_lesson_shim c8_open_state "b").2.frozen =
          c8_open_state.frozen))) :=
  ⟨⟨by decide, c8_frozen_lookup c8_frozen_state "b" (by decide)⟩,
    ⟨by decide, c8_frozen_lookup c8_open_state "b" (by decide)⟩⟩

/-- C9: on a Material with no (falsy) lesson_slug, get_url with url_type web
raises nothing: it returns the stored external_url when that is truthy and
None otherwise; NoURLType is raised exactly for the other url_types. -/
theorem c9_material_get_url_web (m : Material)
    (shim_get_url : String → Except PyExc (Option String)) (url_type : String)
    (hno : truthy m.lesson_slug = false) :
    (url_type = "web" →
      Material.get_url m shim_get_url url_type =
        .ok (if truthy m.external_url then m.external_url else none)) ∧
    (url_type ≠ "web" →
      Material.get_url m shim_get_url url_type =
        .error (.noURLType url_type)) := by
  constructor
  · intro hw
    by_cases he : truthy m.external_url = true
    · simp [Material.get_url, hno, hw, he]
    · simp [Material.get_url, hno, hw, he]
  · intro hw
    simp [Material.get_url, hno, hw]

/-- Witness for C9: an external-link material returns its URL for web and
raises NoURLType for api; a bare material returns None for web. -/
theorem c9_material_get_url_web_witness :
    (truthy c9_material_ext.lesson_slug = false ∧
      (("web" : String) = "web" →
        Material.get_url c9_material_ext (fun _ => .ok none) "web" =
          .ok (if truthy c9_material_ext.external_url then
            c9_material_ext.external_url else none)) ∧
      (("web" : String) ≠ "web" →
        Material.get_url c9_material_ext (fun _ => .ok none) "web" =
          .error (.noURLType "web"))) ∧
    (truthy c9_material_bare.lesson_slug = false ∧
      (("api" : String) = "web" →
        Material.get_url c9_material_bare (fun _ => .ok none) "api" =
          .ok (if truthy c9_material_bare.external_url then
            c9_material_bare.external_url else none)) ∧
      (("api" : String) ≠ "web" →
        Material.get_url c9_material_bare (fun _ => .ok none) "api" =
          .error (.noURLType "api"))) :=
  ⟨⟨by decide, c9_material_get_url_web c9_material_ext (fun _ => .ok none) "web" (by decide)⟩,
    ⟨by decide, c9_material_get_url_web c9_material_bare (fun _ => .ok none) "api" (by decide)⟩⟩

/-- Unfolding of the freeze loop at depth zero. -/
theorem frozen_loop_zero (slug : String) (step : List String → List String)
    (shims : List String) :
    Course._frozen_loop slug step shims 0 =
      if shims.isEmpty then .ok true
      else .error (.valueError (linkDepthMessage slug)) := rfl

/-- Unfolding of the freeze loop at a successor depth. -/
theorem frozen_loop_succ (slug : String) (step : List String → List String)
    (shims : List String) (d : Nat) :
    Course._frozen_loop slug step shims (d + 1) =
      if shims.isEmpty then .ok true
      else Course._frozen_loop slug step (step shims) d := rfl

/-- The freeze loop succeeds exactly when some number of rounds within the
depth budget empties the shim set. -/
theorem frozen_loop_ok_iff (slug : String) (step : List String → List String) :
    ∀ (d : Nat) (shims : List String),
    Course._frozen_loop slug step shims d = .ok true ↔
      ∃ n, n ≤ d ∧ (step^[n] shims).isEmpty = true := by
  intro d
  induction d with
  | zero =>
    intro shims
    rw [frozen_loop_zero]
    by_cases hs : shims.isEmpty = true
    · rw [if_pos hs]
      constructor
      · intro _
        refine ⟨0, Nat.le_refl 0, ?_⟩
        simpa only [Function.iterate_zero, id_eq] using hs
      · intro _
        rfl
    · rw [if_neg hs]
      constructor
      · intro h
        exact Except.noConfusion h
      · rintro ⟨n, hn, he⟩
        have hn0 : n = 0 := Nat.le_zero.mp hn
        subst hn0
        simp only [Function.iterate_zero, id_eq] at he
        exact absurd he hs
  | succ d ih =>
    intro shims
    rw [frozen_loop_succ]
    by_cases hs : shims.isEmpty = true
    · rw [if_pos hs]
      constructor
      · intro _
        refine ⟨0, Nat.zero_le _, ?_⟩
        simpa only [Function.iterate_zero, id_eq] using hs
      · intro _
        rfl
    · rw [if_neg hs]
      rw [ih (step shims)]
      constructor
      · rintro ⟨n, hn, he⟩
        refine ⟨n + 1, Nat.succ_le_succ hn, ?_⟩
        rwa [Function.iterate_succ_apply]
      · rintro ⟨n, hn, he⟩
        match n, hn, he with
        | 0, hn, he =>
          simp only [Function.iterate_zero, id_eq] at he
          exact absurd he hs
        | m + 1, hn, he =>
          refine ⟨m, Nat.succ_le_succ_iff.mp hn, ?_⟩
          rwa [Function.iterate_succ_apply] at he

/-- The freeze loop has only two outcomes: success, or the link-depth
ValueError naming the course. -/
theorem frozen_loop_cases (slug : String) (step : List String → List String) :
    ∀ (d : Nat) (shims : List String),
    Course._frozen_loop slug step shims d = .ok true ∨
      Course._frozen_loop slug step shims d =
        .error (.valueError (linkDepthMessage slug)) := by
  intro d
  induction d with
  | zero =>
    intro shims
    rw [frozen_loop_zero]
    by_cases hs : shims.isEmpty = true
    · rw [if_pos hs]
      exact Or.inl rfl
    · rw [if_neg hs]
      exact Or.inr rfl
  | succ d ih =>
    intro shims
    rw [frozen_loop_succ]
    by_cases hs : shims.isEmpty = true
    · rw [if_pos hs]
      exact Or.inl rfl
    · rw [if_neg hs]
      exact ih (step shims)

/-- C2: the freeze-time resolution loop, run with its initial link_depth of
50, succeeds exactly on courses whose shim set empties within 50 rounds of
the per-round step, and otherwise fails with the link-depth ValueError whose
message names the course. -/
theorem c2_link_depth_bound (slug : String) (step : List String → List String)
    (shims : List String) :
    ((∃ n, n ≤ 50 ∧ (step^[n] shims).isEmpty = true) →
      Course._frozen_loop slug step shims 50 = .ok true) ∧
    ((∀ n, n ≤ 50 → (step^[n] shims).isEmpty = false) →
      Course._frozen_loop slug step shims 50 =
        .error (.valueError (linkDepthMessage slug))) := by
  constructor
  · intro h
    exact (frozen_loop_ok_iff slug step 50 shims).mpr h
  · intro h
    rcases frozen_loop_cases slug step 50 shims with hok | herr
    · exfalso
      obtain ⟨n, hn, he⟩ := (frozen_loop_ok_iff slug step 50 shims).mp hok
      have hfalse := h n hn
      rw [he] at hfalse
      exact Bool.noConfusion hfalse
    · exact herr

/-- Witness for C2: a reference chain of length 49 (one link resolved per
round) freezes successfully, while a one-lesson cycle (the shim set never
shrinks) fails with the link-depth error. -/
theorem c2_link_depth_bound_witness :
    ((∃ n, n ≤ 50 ∧
        ((List.tail : List String → List String)^[n]
          (List.replicate 49 "x")).isEmpty = true) ∧
      Course._frozen_loop "2024/chain" List.tail (List.replicate 49 "x") 50 =
        .ok true) ∧
    ((∀ n, n ≤ 50 →
        ((id : List String → List String)^[n] ["a"]).isEmpty = false) ∧
      Course._frozen_loop "2024/cycle" id ["a"] 50 =
        .error (.valueError (linkDepthMessage "2024/cycle"))) := by
  have h1 : ∃ n, n ≤ 50 ∧
      ((List.tail : List String → List String)^[n]
        (List.replicate 49 "x")).isEmpty = true :=
    ⟨49, by decide, by decide⟩
  have h2 : ∀ n, n ≤ 50 →
      ((id : List String → List String)^[n] ["a"]).isEmpty = false := by
    intro n hn
    rw [Function.iterate_id]
    rfl
  exact ⟨⟨h1, (c2_link_depth_bound "2024/chain" List.tail
      (List.replicate 49 "x")).1 h1⟩,
    ⟨h2, (c2_link_depth_bound "2024/cycle" id ["a"]).2 h2⟩⟩

/-- set_prev_next is spnAux started with no predecessor. -/
theorem set_prev_next_eq_spnAux {α : Type*} (seq : List α) :
    set_prev_next seq = spnAux none seq := rfl

/-- One step of spnAux: the head element gets the carried prev and the head of
the rest as next, and the rest is processed with the head as carried prev. -/
theorem spnAux_cons {α : Type*} (pre : Option α) (x : α) (rest : List α) :
    spnAux pre (x :: rest) = (pre, x, rest.head?) :: spnAux (some x) rest := by
  cases rest <;> rfl

/-- Element i of spnAux pre seq carries the element before it (pre at the
front), the element itself, and the element after it. -/
theorem spnAux_getElem? {α : Type*} (pre : Option α) (seq : List α) (i : Nat) :
    (spnAux pre seq)[i]? = (seq[i]?).map
      (fun x => (if i = 0 then pre else seq[i - 1]?, x, seq[i + 1]?)) := by
  induction seq generalizing pre i with
  | nil => simp [spnAux]
  | cons x rest ih =>
    rw [spnAux_cons]
    match i with
    | 0 => cases rest <;> simp
    | Nat.succ j =>
      simp only [List.getElem?_cons_succ, ih (some x) j, Nat.succ_sub_one,
        Nat.add_sub_cancel, Nat.succ_ne_zero, if_false]
      have hpre : (if j = 0 then some x else rest[j - 1]?) = (x :: rest)[j]? := by
        match j with
        | 0 => simp
        | k + 1 => simp
      rw [hpre]

/-- C4: for a materialized ordered sequence of at least two elements, the
prev/next triples produced by set_prev_next give the first element no prev,
the last element no next, and link every adjacent pair both ways, in
insertion order. -/
theorem c4_prev_next_chain {α : Type*} (seq : List α) (i : Nat)
    (h2 : 2 ≤ seq.length) (hi : i + 1 < seq.length) :
    ((set_prev_next seq)[0]?).map (fun t => t.1) = some none ∧
    ((set_prev_next seq)[seq.length - 1]?).map (fun t => t.2.2) = some none ∧
    ((set_prev_next seq)[i]?).map (fun t => t.2.2) = some (seq[i + 1]?) ∧
    ((set_prev_next seq)[i + 1]?).map (fun t => t.1) = some (seq[i]?) := by
  rw [set_prev_next_eq_spnAux]
  have hlen0 : 0 < seq.length := by omega
  have hlast : seq.length - 1 < seq.length := by omega
  have hii : i < seq.length := by omega
  have hi1 : i + 1 < seq.length := hi
  refine ⟨?_, ?_, ?_, ?_⟩
  · rw [spnAux_getElem?, List.getElem?_eq_getElem hlen0]
    simp
  · rw [spnAux_getElem?, List.getElem?_eq_getElem hlast]
    have hpast : seq.length - 1 + 1 = seq.length := by omega
    rw [hpast]
    simp [List.getElem?_eq_none (Nat.le_refl seq.length)]
  · rw [spnAux_getElem?, List.getElem?_eq_getElem hii]
    simp
  · rw [spnAux_getElem?, List.getElem?_eq_getElem hi1]
    simp

/-- Witness for C4 on the three-element list [10, 20, 30] at the adjacent
pair in positions 1 and 2. -/
theorem c4_prev_next_chain_witness :
    2 ≤ ([10, 20, 30] : List Nat).length ∧
    1 + 1 < ([10, 20, 30] : List Nat).length ∧
    (((set_prev_next ([10, 20, 30] : List Nat))[0]?).map (fun t => t.1) =
        some none ∧
      ((set_prev_next ([10, 20, 30] : List Nat))[([10, 20, 30] : List Nat).length - 1]?).map
        (fun t => t.2.2) = some none ∧
      ((set_prev_next ([10, 20, 30] : List Nat))[1]?).map (fun t => t.2.2) =
        some (([10, 20, 30] : List Nat)[1 + 1]?) ∧
      ((set_prev_next ([10, 20, 30] : List Nat))[1 + 1]?).map (fun t => t.1) =
        some (([10, 20, 30] : List Nat)[1]?)) :=
  ⟨by decide, by decide,
    c4_prev_next_chain ([10, 20, 30] : List Nat) 1 (by decide) (by decide)⟩
